import Mathlib

/-!
Shallow embedding of the material classification and render pipeline core of
the hifi repository: MaterialKey / MaterialFilter (Material.h) and the
Varying / Job stage machinery plus ItemMaterialBucketMap (DrawTask.h).

A std::bitset of NUM_FLAGS bits is modelled as a Nat whose value is below
2 ^ NUM_FLAGS; bit operations use Nat.testBit, Nat.lor and Nat.land.
-/

namespace Hifi

/-! Enumerators of MaterialKey::FlagBit, Material.h lines 29 to 45. -/

def EMISSIVE_VAL_BIT : Nat := 0

def ALBEDO_VAL_BIT : Nat := 1

def METALLIC_VAL_BIT : Nat := 2

def GLOSS_VAL_BIT : Nat := 3

def TRANSPARENT_VAL_BIT : Nat := 4

def EMISSIVE_MAP_BIT : Nat := 5

def ALBEDO_MAP_BIT : Nat := 6

def METALLIC_MAP_BIT : Nat := 7

def GLOSS_MAP_BIT : Nat := 8

def TRANSPARENT_MAP_BIT : Nat := 9

def NORMAL_MAP_BIT : Nat := 10

def LIGHTMAP_MAP_BIT : Nat := 11

def NUM_FLAGS : Nat := 12

/-- Number of enumerators of MaterialKey::MapChannel, Material.h line 57. -/
def NUM_MAP_CHANNELS : Nat := 7

/-- Flags is std::bitset of NUM_FLAGS bits, modelled as a Nat below 2 ^ NUM_FLAGS. -/
abbrev Flags : Type := Nat

/-- bitset::set(pos, value): set bit pos to value, leaving all other bits of the
12-bit register unchanged (the register universe is 2 ^ NUM_FLAGS - 1). -/
def Flags.setVal (f : Flags) (pos : Nat) (value : Bool) : Flags :=
  if value then f ||| 2 ^ pos else f &&& ((2 ^ NUM_FLAGS - 1) ^^^ 2 ^ pos)

/-- bitset::set(pos): set bit pos to true. -/
def Flags.setTrue (f : Flags) (pos : Nat) : Flags := f ||| 2 ^ pos

/-- bitset::reset(pos): set bit pos to false. -/
def Flags.resetBit (f : Flags) (pos : Nat) : Flags :=
  f &&& ((2 ^ NUM_FLAGS - 1) ^^^ 2 ^ pos)

/-- bitset::operator[]: read bit pos. -/
def Flags.read (f : Flags) (pos : Nat) : Bool := Nat.testBit f pos

/-- MaterialKey, Material.h lines 27 to 132: the signature is the Flags. -/
structure MaterialKey where
  _flags : Nat
deriving DecidableEq

/-- Bit index addressed by MaterialKey::setMapChannel and isMapChannel
for a given channel: EMISSIVE_MAP_BIT + channel (Material.h lines 129 to 130). -/
def mapChannelBit (channel : Nat) : Nat := EMISSIVE_MAP_BIT + channel

def MaterialKey.setEmissive (k : MaterialKey) (value : Bool) : MaterialKey :=
  ⟨Flags.setVal k._flags EMISSIVE_VAL_BIT value⟩

def MaterialKey.isEmissive (k : MaterialKey) : Bool := Flags.read k._flags EMISSIVE_VAL_BIT

def MaterialKey.setEmissiveMap (k : MaterialKey) (value : Bool) : MaterialKey :=
  ⟨Flags.setVal k._flags EMISSIVE_MAP_BIT value⟩

def MaterialKey.isEmissiveMap (k : MaterialKey) : Bool := Flags.read k._flags EMISSIVE_MAP_BIT

def MaterialKey.setAlbedo (k : MaterialKey) (value : Bool) : MaterialKey :=
  ⟨Flags.setVal k._flags ALBEDO_VAL_BIT value⟩

def MaterialKey.isAlbedo (k : MaterialKey) : Bool := Flags.read k._flags ALBEDO_VAL_BIT

def MaterialKey.setAlbedoMap (k : MaterialKey) (value : Bool) : MaterialKey :=
  ⟨Flags.setVal k._flags ALBEDO_MAP_BIT value⟩

def MaterialKey.isAlbedoMap (k : MaterialKey) : Bool := Flags.read k._flags ALBEDO_MAP_BIT

def MaterialKey.setMetallic (k : MaterialKey) (value : Bool) : MaterialKey :=
  ⟨Flags.setVal k._flags METALLIC_VAL_BIT value⟩

def MaterialKey.isMetallic (k : MaterialKey) : Bool := Flags.read k._flags METALLIC_VAL_BIT

def MaterialKey.setMetallicMap (k : MaterialKey) (value : Bool) : MaterialKey :=
  ⟨Flags.setVal k._flags METALLIC_MAP_BIT value⟩

def MaterialKey.isMetallicMap (k : MaterialKey) : Bool := Flags.read k._flags METALLIC_MAP_BIT

def MaterialKey.setGloss (k : MaterialKey) (value : Bool) : MaterialKey :=
  ⟨Flags.setVal k._flags GLOSS_VAL_BIT value⟩

def MaterialKey.isGloss (k : MaterialKey) : Bool := Flags.read k._flags GLOSS_VAL_BIT

def MaterialKey.setGlossMap (k : MaterialKey) (value : Bool) : MaterialKey :=
  ⟨Flags.setVal k._flags GLOSS_MAP_BIT value⟩

def MaterialKey.isGlossMap (k : MaterialKey) : Bool := Flags.read k._flags GLOSS_MAP_BIT

def MaterialKey.setTransparent (k : MaterialKey) (value : Bool) : MaterialKey :=
  ⟨Flags.setVal k._flags TRANSPARENT_VAL_BIT value⟩

def MaterialKey.isTransparent (k : MaterialKey) : Bool :=
  Flags.read k._flags TRANSPARENT_VAL_BIT

/-- MaterialKey::isOpaque, Material.h line 118: the negated transparent bit. -/
def MaterialKey.isOpaque (k : MaterialKey) : Bool :=
  !(Flags.read k._flags TRANSPARENT_VAL_BIT)

def MaterialKey.setTransparentMap (k : MaterialKey) (value : Bool) : MaterialKey :=
  ⟨Flags.setVal k._flags TRANSPARENT_MAP_BIT value⟩

def MaterialKey.isTransparentMap (k : MaterialKey) : Bool :=
  Flags.read k._flags TRANSPARENT_MAP_BIT

def MaterialKey.setNormalMap (k : MaterialKey) (value : Bool) : MaterialKey :=
  ⟨Flags.setVal k._flags NORMAL_MAP_BIT value⟩

def MaterialKey.isNormalMap (k : MaterialKey) : Bool := Flags.read k._flags NORMAL_MAP_BIT

def MaterialKey.setLightmapMap (k : MaterialKey) (value : Bool) : MaterialKey :=
  ⟨Flags.setVal k._flags LIGHTMAP_MAP_BIT value⟩

def MaterialKey.isLightmapMap (k : MaterialKey) : Bool := Flags.read k._flags LIGHTMAP_MAP_BIT

/-- MaterialKey::setMapChannel, Material.h line 129: set bit EMISSIVE_MAP_BIT + channel. -/
def MaterialKey.setMapChannel (k : MaterialKey) (channel : Nat) (value : Bool) : MaterialKey :=
  ⟨Flags.setVal k._flags (mapChannelBit channel) value⟩

/-- MaterialKey::isMapChannel, Material.h line 130: read bit EMISSIVE_MAP_BIT + channel. -/
def MaterialKey.isMapChannel (k : MaterialKey) (channel : Nat) : Bool :=
  Flags.read k._flags (mapChannelBit channel)

/-- MaterialKey::Builder, Material.h lines 66 to 90. -/
structure MaterialKey.Builder where
  _flags : Nat

def MaterialKey.Builder.init : MaterialKey.Builder := ⟨0⟩

def MaterialKey.Builder.build (b : MaterialKey.Builder) : MaterialKey := ⟨b._flags⟩

def MaterialKey.Builder.withAlbedo (b : MaterialKey.Builder) : MaterialKey.Builder :=
  ⟨Flags.setTrue b._flags ALBEDO_VAL_BIT⟩

def MaterialKey.Builder.withTransparent (b : MaterialKey.Builder) : MaterialKey.Builder :=
  ⟨Flags.setTrue b._flags TRANSPARENT_VAL_BIT⟩

/-- MaterialKey::Builder::opaqueAlbedo, Material.h line 89. -/
def MaterialKey.Builder.opaqueAlbedo : MaterialKey :=
  MaterialKey.Builder.build (MaterialKey.Builder.withAlbedo MaterialKey.Builder.init)

/-- MaterialFilter, Material.h lines 135 to 204: a value and a mask bit vector. -/
structure MaterialFilter where
  _value : Nat
  _mask : Nat

/-- MaterialFilter::test, Material.h line 192:
(key._flags AND mask) equals (value AND mask). -/
def MaterialFilter.test (f : MaterialFilter) (key : MaterialKey) : Bool :=
  (key._flags &&& f._mask) == (f._value &&& f._mask)

/-- MaterialFilter::Less, Material.h lines 194 to 203: compare values as unsigned
integers; on equal values compare masks. -/
def MaterialFilter.Less (left right : MaterialFilter) : Bool :=
  if left._value = right._value then
    decide (left._mask < right._mask)
  else
    decide (left._value < right._value)

/-- MaterialFilter::Builder, Material.h lines 143 to 189. -/
structure MaterialFilter.Builder where
  _value : Nat
  _mask : Nat

def MaterialFilter.Builder.init : MaterialFilter.Builder := ⟨0, 0⟩

def MaterialFilter.Builder.build (b : MaterialFilter.Builder) : MaterialFilter :=
  ⟨b._value, b._mask⟩

def MaterialFilter.Builder.withAlbedo (b : MaterialFilter.Builder) : MaterialFilter.Builder :=
  ⟨Flags.setTrue b._value ALBEDO_VAL_BIT, Flags.setTrue b._mask ALBEDO_VAL_BIT⟩

def MaterialFilter.Builder.withoutTransparent (b : MaterialFilter.Builder) :
    MaterialFilter.Builder :=
  ⟨Flags.resetBit b._value TRANSPARENT_VAL_BIT, Flags.setTrue b._mask TRANSPARENT_VAL_BIT⟩

/-- MaterialFilter::Builder::opaqueAlbedo, Material.h line 188: albedo required
present, transparency required absent. -/
def MaterialFilter.Builder.opaqueAlbedo : MaterialFilter :=
  MaterialFilter.Builder.build
    (MaterialFilter.Builder.withoutTransparent
      (MaterialFilter.Builder.withAlbedo MaterialFilter.Builder.init))

/-! Render pipeline core, DrawTask.h. ItemID is an opaque external identifier
(render item ids are declared outside the four source files); it is modelled
as a Nat, used only as a pass-through value. -/

abbrev ItemID : Type := Nat

abbrev ItemIDs : Type := List ItemID

/-- ItemMaterialBucketMap, DrawTask.h lines 282 to 291: a std::map from
MaterialFilter to ItemIDs ordered by MaterialFilter::Less. The std::map
container invariant is that entries are strictly sorted by the comparator,
and iteration enumerates entries in that order; the entry list below is the
iteration sequence, carrying the sortedness invariant. -/
structure ItemMaterialBucketMap where
  buckets : List (MaterialFilter × ItemIDs)
  sorted : List.Pairwise (fun a b => MaterialFilter.Less a.1 b.1 = true) buckets

/-- Job::Varying, DrawTask.h lines 36 to 72: a shared pointer to a type-erased
concept cell. A Varying value is the pointer identity (the slot); the pointed-to
payloads of all slots of payload type T form a heap from slot ids to T. Copying
a Varying copies the pointer, so copies share the slot. -/
structure Varying where
  slot : Nat

/-- Heap of payloads of type T indexed by Varying slot id: the _data fields of
all Varying::Model cells of payload type T. -/
abbrev Heap (T : Type) : Type := Nat → T

/-- Varying copy constructor, DrawTask.h line 39: shares the concept pointer. -/
def Varying.copy (v : Varying) : Varying := ⟨v.slot⟩

/-- Varying::get, DrawTask.h line 47: read the _data of the shared cell. -/
def Varying.get (h : Heap T) (v : Varying) : T := h v.slot

/-- Varying::edit, DrawTask.h line 46, followed by an assignment through the
returned mutable reference: write x into the _data of the shared cell. -/
def Varying.editWrite (h : Heap T) (v : Varying) (x : T) : Heap T :=
  fun s => if s = v.slot then x else h s

/-- Varying constructor from a payload, DrawTask.h line 43: allocate a fresh
concept cell holding the payload. The fresh slot id is passed explicitly. -/
def Varying.ofData (x : T) (fresh : Nat) (h : Heap T) : Varying × Heap T :=
  (⟨fresh⟩, fun s => if s = fresh then x else h s)

/-- jobRun, DrawTask.h lines 19 to 21: invoke the stage run member on the
stage value. The run member of the C++ stage type T is passed as a function. -/
def jobRun (run : SC → RC → T → T) (jobModel : T) (sceneContext : SC)
    (renderContext : RC) : T :=
  run sceneContext renderContext jobModel

/-- jobRunI, DrawTask.h lines 22 to 24: invoke the stage run member with the
input value. -/
def jobRunI (run : SC → RC → T → I → T) (jobModel : T) (sceneContext : SC)
    (renderContext : RC) (input : I) : T :=
  run sceneContext renderContext jobModel input

/-- jobRunO, DrawTask.h lines 25 to 27: invoke the stage run member with a
mutable output; the stage returns its new state and the new output value. -/
def jobRunO (run : SC → RC → T → O → T × O) (jobModel : T) (sceneContext : SC)
    (renderContext : RC) (output : O) : T × O :=
  run sceneContext renderContext jobModel output

/-- jobRunIO, DrawTask.h lines 28 to 30: invoke the stage run member with the
input value and a mutable output. -/
def jobRunInOut (run : SC → RC → T → I → O → T × O) (jobModel : T) (sceneContext : SC)
    (renderContext : RC) (input : I) (output : O) : T × O :=
  run sceneContext renderContext jobModel input output

/-- The four Job concept shapes, DrawTask.h lines 108 to 179: Model (no slots),
ModelI (input only), ModelO (output only), ModelIO (input and output, spelled
modelInOut here). Each carries the stage value (_data), its Varying slots, and
the run member of the C++ stage type. The constructor of a concept value is its
shape, fixed for its lifetime. -/
inductive Concept (SC RC T I O : Type) where
  | model (data : T) (runT : SC → RC → T → T)
  | modelI (data : T) (input : Varying) (runT : SC → RC → T → I → T)
  | modelO (data : T) (output : Varying) (runT : SC → RC → T → O → T × O)
  | modelInOut (data : T) (input : Varying) (output : Varying)
      (runT : SC → RC → T → I → O → T × O)

/-- The shape of a Job concept: which of the four I/O forms it was built with. -/
inductive ConceptShape where
  | noSlots
  | inputOnly
  | outputOnly
  | inputOutput

def Concept.shape : Concept SC RC T I O → ConceptShape
  | .model _ _ => .noSlots
  | .modelI _ _ _ => .inputOnly
  | .modelO _ _ _ => .outputOnly
  | .modelInOut _ _ _ _ => .inputOutput

/-- Concept::run of each Model class, DrawTask.h lines 119, 136, 155 to 157 and
178: Model runs the stage on the contexts alone; ModelI also passes the value
read from the input slot; ModelO passes a mutable reference into the output
slot, modelled as reading the current output payload and writing back the
payload the stage returns; ModelIO does both. The stage value is updated in
place. Input slots are read from the input heap; output slots are written to
the output heap. -/
def Concept.run : Concept SC RC T I O → SC → RC → Heap I → Heap O →
    Concept SC RC T I O × Heap O
  | .model d r, sc, rc, _, ho => (.model (r sc rc d) r, ho)
  | .modelI d v r, sc, rc, hi, ho => (.modelI (r sc rc d (Varying.get hi v)) v r, ho)
  | .modelO d v r, sc, rc, _, ho =>
      (.modelO (r sc rc d (Varying.get ho v)).1 v r,
        Varying.editWrite ho v (r sc rc d (Varying.get ho v)).2)
  | .modelInOut d vi vo r, sc, rc, hi, ho =>
      (.modelInOut (r sc rc d (Varying.get hi vi) (Varying.get ho vo)).1 vi vo r,
        Varying.editWrite ho vo (r sc rc d (Varying.get hi vi) (Varying.get ho vo)).2)

/-- Job, DrawTask.h lines 32 to 182: holds a shared pointer to a concept, which
may be null. -/
structure Job (SC RC T I O : Type) where
  concept : Option (Concept SC RC T I O)

/-- Job::run, DrawTask.h lines 81 to 85: if the concept pointer is non-null,
run the concept; otherwise do nothing. -/
def Job.run (j : Job SC RC T I O) (sc : SC) (rc : RC) (hi : Heap I) (ho : Heap O) :
    Job SC RC T I O × Heap O :=
  match j.concept with
  | none => (j, ho)
  | some c => ((⟨some (Concept.run c sc rc hi ho).1⟩ : Job SC RC T I O),
      (Concept.run c sc rc hi ho).2)

/-- ModelO default constructor, DrawTask.h lines 149 to 151: _output is a fresh
Varying holding a default-constructed Output; _data is default-constructed. -/
def Concept.mkModelO [Inhabited T] [Inhabited O] (r : SC → RC → T → O → T × O)
    (fresh : Nat) (ho : Heap O) : Concept SC RC T I O × Heap O :=
  ((Concept.modelO default ((Varying.ofData (default : O) fresh ho).1) r : Concept SC RC T I O),
    (Varying.ofData (default : O) fresh ho).2)

/-- ModelO data constructor, DrawTask.h line 153: _data is the given stage
value; _output is a fresh Varying holding a default-constructed Output. -/
def Concept.mkModelOData [Inhabited O] (d : T) (r : SC → RC → T → O → T × O)
    (fresh : Nat) (ho : Heap O) : Concept SC RC T I O × Heap O :=
  ((Concept.modelO d ((Varying.ofData (default : O) fresh ho).1) r : Concept SC RC T I O),
    (Varying.ofData (default : O) fresh ho).2)

/-- ModelIO input constructor, DrawTask.h line 173: _input is the given Varying,
_output is a fresh Varying holding a default-constructed Output, _data is
default-constructed. -/
def Concept.mkModelInOutFromInput [Inhabited T] [Inhabited O] (input : Varying)
    (r : SC → RC → T → I → O → T × O) (fresh : Nat) (ho : Heap O) :
    Concept SC RC T I O × Heap O :=
  ((Concept.modelInOut default input ((Varying.ofData (default : O) fresh ho).1) r :
      Concept SC RC T I O),
    (Varying.ofData (default : O) fresh ho).2)

/-- The public member functions of MaterialKey, Material.h lines 92 to 131: one
constructor per member, carrying the call arguments. The is-prefixed members
and isOpaque are const member functions; the set-prefixed members are
non-const. -/
inductive KeyOp where
  | setEmissive (v : Bool)
  | isEmissive
  | setEmissiveMap (v : Bool)
  | isEmissiveMap
  | setAlbedo (v : Bool)
  | isAlbedo
  | setAlbedoMap (v : Bool)
  | isAlbedoMap
  | setMetallic (v : Bool)
  | isMetallic
  | setMetallicMap (v : Bool)
  | isMetallicMap
  | setGloss (v : Bool)
  | isGloss
  | setGlossMap (v : Bool)
  | isGlossMap
  | setTransparent (v : Bool)
  | isTransparent
  | isOpaque
  | setTransparentMap (v : Bool)
  | isTransparentMap
  | setNormalMap (v : Bool)
  | isNormalMap
  | setLightmapMap (v : Bool)
  | isLightmapMap
  | setMapChannel (c : Nat) (v : Bool)
  | isMapChannel (c : Nat)

/-- State of the MaterialKey object after the member call: const members leave
the object as it is, the setters update _flags in place. -/
def KeyOp.post : KeyOp → MaterialKey → MaterialKey
  | .setEmissive v, k => MaterialKey.setEmissive k v
  | .isEmissive, k => k
  | .setEmissiveMap v, k => MaterialKey.setEmissiveMap k v
  | .isEmissiveMap, k => k
  | .setAlbedo v, k => MaterialKey.setAlbedo k v
  | .isAlbedo, k => k
  | .setAlbedoMap v, k => MaterialKey.setAlbedoMap k v
  | .isAlbedoMap, k => k
  | .setMetallic v, k => MaterialKey.setMetallic k v
  | .isMetallic, k => k
  | .setMetallicMap v, k => MaterialKey.setMetallicMap k v
  | .isMetallicMap, k => k
  | .setGloss v, k => MaterialKey.setGloss k v
  | .isGloss, k => k
  | .setGlossMap v, k => MaterialKey.setGlossMap k v
  | .isGlossMap, k => k
  | .setTransparent v, k => MaterialKey.setTransparent k v
  | .isTransparent, k => k
  | .isOpaque, k => k
  | .setTransparentMap v, k => MaterialKey.setTransparentMap k v
  | .isTransparentMap, k => k
  | .setNormalMap v, k => MaterialKey.setNormalMap k v
  | .isNormalMap, k => k
  | .setLightmapMap v, k => MaterialKey.setLightmapMap k v
  | .isLightmapMap, k => k
  | .setMapChannel c v, k => MaterialKey.setMapChannel k c v
  | .isMapChannel _, k => k

/-- Whether the member function is declared const in Material.h. -/
def KeyOp.isConstMember : KeyOp → Bool
  | .setEmissive _ => false
  | .isEmissive => true
  | .setEmissiveMap _ => false
  | .isEmissiveMap => true
  | .setAlbedo _ => false
  | .isAlbedo => true
  | .setAlbedoMap _ => false
  | .isAlbedoMap => true
  | .setMetallic _ => false
  | .isMetallic => true
  | .setMetallicMap _ => false
  | .isMetallicMap => true
  | .setGloss _ => false
  | .isGloss => true
  | .setGlossMap _ => false
  | .isGlossMap => true
  | .setTransparent _ => false
  | .isTransparent => true
  | .isOpaque => true
  | .setTransparentMap _ => false
  | .isTransparentMap => true
  | .setNormalMap _ => false
  | .isNormalMap => true
  | .setLightmapMap _ => false
  | .isLightmapMap => true
  | .setMapChannel _ _ => false
  | .isMapChannel _ => true

/-- The public member operations of a constructed MaterialFilter, Material.h
lines 191 to 203: test is a const member; a Less comparison reads both filters
through const references, as the left or the right operand. -/
inductive FilterOp where
  | testKey (k : MaterialKey)
  | lessLeft (other : MaterialFilter)
  | lessRight (other : MaterialFilter)

/-- State of the MaterialFilter object after the operation: all three
operations take the filter by const reference and leave it unchanged. -/
def FilterOp.post : FilterOp → MaterialFilter → MaterialFilter
  | .testKey _, f => f
  | .lessLeft _, f => f
  | .lessRight _, f => f

/-- A concrete two-bucket map used to instantiate the enumeration-order
theorem: the filter with value 1, mask 1 sits before the filter with value 2,
mask 3. -/
def sampleBucketMap : ItemMaterialBucketMap :=
  ⟨[(⟨1, 1⟩, []), (⟨2, 3⟩, [])], by
    refine List.Pairwise.cons ?_ (List.Pairwise.cons ?_ List.Pairwise.nil)
    · intro p hp
      rw [List.mem_singleton] at hp
      subst hp
      decide
    · intro p hp
      cases hp⟩

/-- A concrete output-shape stage run function on Nat payloads, used to
instantiate the constructor theorems. -/
def sampleRunO : Unit → Unit → Nat → Nat → Nat × Nat := fun _ _ t o => (t + o, o + 1)

/-- A concrete input-output-shape stage run function on Nat payloads. -/
def sampleRunInOut : Unit → Unit → Nat → Nat → Nat → Nat × Nat :=
  fun _ _ t i o => (t + i, o + i)

/-- A concrete output heap with every slot holding 9. -/
def sampleHeap : Heap Nat := fun _ => 9

/-- A concrete no-slot stage run function on a Nat stage value. -/
def sampleRun : Unit → Unit → Nat → Nat := fun _ _ t => t + 1

/-- A concrete no-slot concept built from sampleRun with stage value 3. -/
def sampleConceptModel : Concept Unit Unit Nat Nat Nat := Concept.model 3 sampleRun

/-! Helper lemmas shared by the claim theorems. -/

/-- Masked equality of two bit vectors holds exactly when the vectors agree on
every bit set in the mask. -/
theorem land_mask_eq_iff (a v m : Nat) :
    (a &&& m) = (v &&& m) ↔ ∀ i, Nat.testBit m i = true → Nat.testBit a i = Nat.testBit v i := by
  constructor
  · intro h i hm
    have hbit := congrArg (fun x => Nat.testBit x i) h
    simpa [Nat.testBit_land, hm] using hbit
  · intro h
    apply Nat.eq_of_testBit_eq
    intro i
    rw [Nat.testBit_land, Nat.testBit_land]
    cases hm : Nat.testBit m i
    · simp
    · simp [h i hm]

/-- Bits at or beyond position n of a number below 2 ^ n read false. -/
theorem testBit_false_of_lt_pow (m n i : Nat) (hm : m < 2 ^ n) (hi : n ≤ i) :
    Nat.testBit m i = false :=
  Nat.testBit_eq_false_of_lt (lt_of_lt_of_le hm (Nat.pow_le_pow_right (by norm_num) hi))

theorem materialFilter_less_irrefl (a : MaterialFilter) : MaterialFilter.Less a a = false := by
  simp [MaterialFilter.Less]

/-- The comparator in propositional form: value strictly below, or equal value
and mask strictly below. -/
theorem materialFilter_less_true_iff (a b : MaterialFilter) :
    MaterialFilter.Less a b = true ↔
      a._value < b._value ∨ (a._value = b._value ∧ a._mask < b._mask) := by
  unfold MaterialFilter.Less
  by_cases e : a._value = b._value
  · simp [e]
  · simp [e]

theorem materialFilter_less_trans (a b c : MaterialFilter)
    (h1 : MaterialFilter.Less a b = true) (h2 : MaterialFilter.Less b c = true) :
    MaterialFilter.Less a c = true := by
  rw [materialFilter_less_true_iff] at h1 h2 ⊢
  rcases h1 with h1 | ⟨h1e, h1m⟩ <;> rcases h2 with h2 | ⟨h2e, h2m⟩ <;>
    first
      | (left ; omega)
      | (right ; exact ⟨by omega, by omega⟩)

theorem materialFilter_less_asymm (a b : MaterialFilter)
    (h1 : MaterialFilter.Less a b = true) (h2 : MaterialFilter.Less b a = true) : False := by
  have h := materialFilter_less_trans a b a h1 h2
  rw [materialFilter_less_irrefl] at h
  exact Bool.false_ne_true h

theorem materialFilter_less_consistent (a b : MaterialFilter)
    (h1 : MaterialFilter.Less a b = false) (h2 : MaterialFilter.Less b a = false) : a = b := by
  have p1 : ¬(MaterialFilter.Less a b = true) := by simp [h1]
  have p2 : ¬(MaterialFilter.Less b a = true) := by simp [h2]
  rw [materialFilter_less_true_iff] at p1 p2
  obtain ⟨av, am⟩ := a
  obtain ⟨bv, bm⟩ := b
  dsimp only at p1 p2
  simp only [MaterialFilter.mk.injEq]
  constructor <;> omega

/-! Claim theorems. -/

/-- C1: MaterialFilter::test returns true exactly when the masked key flags
equal the masked filter value, which holds exactly when every bit set in the
mask has the key bit equal to the filter value bit, bits outside the mask
being unconstrained; the opaque-albedo filter accepts the albedo-only key and
rejects the same key with the transparent bit set. -/
theorem materialFilter_test_characterization :
    (∀ (f : MaterialFilter) (k : MaterialKey),
      MaterialFilter.test f k = true ↔ (k._flags &&& f._mask) = (f._value &&& f._mask))
    ∧ (∀ (f : MaterialFilter) (k : MaterialKey),
      f._value < 2 ^ NUM_FLAGS → f._mask < 2 ^ NUM_FLAGS → k._flags < 2 ^ NUM_FLAGS →
      (MaterialFilter.test f k = true ↔
        ∀ i, i < NUM_FLAGS → Nat.testBit f._mask i = true →
          Nat.testBit k._flags i = Nat.testBit f._value i))
    ∧ MaterialFilter.test MaterialFilter.Builder.opaqueAlbedo
        MaterialKey.Builder.opaqueAlbedo = true
    ∧ MaterialFilter.test MaterialFilter.Builder.opaqueAlbedo
        (MaterialKey.setTransparent MaterialKey.Builder.opaqueAlbedo true) = false := by
  refine ⟨fun f k => ?_, fun f k hv hm hk => ?_, by decide, by decide⟩
  · simp [MaterialFilter.test]
  · rw [MaterialFilter.test, beq_iff_eq, land_mask_eq_iff]
    constructor
    · intro h i _ hbit
      exact h i hbit
    · intro h i hbit
      by_cases hi : i < NUM_FLAGS
      · exact h i hi hbit
      · rw [testBit_false_of_lt_pow f._mask NUM_FLAGS i hm (le_of_not_lt hi)] at hbit
        exact absurd hbit Bool.false_ne_true

/-- C1 witness: the bounded-pointwise characterization applied to the filter
with value 2, mask 18 and the key with flags 2. -/
theorem materialFilter_test_characterization_witness :
    MaterialFilter.test ⟨2, 18⟩ ⟨2⟩ = true :=
  (materialFilter_test_characterization.2.1 ⟨2, 18⟩ ⟨2⟩ (by decide) (by decide)
    (by decide)).mpr (fun i _ _ => rfl)

/-- C2: MaterialFilter::Less compares the value first and the mask on tied
values, and is a strict weak order: irreflexive, transitive, and two filters
with neither below the other are equal; the filter with value 1, mask 1 orders
strictly before the filter with value 2, mask 3. -/
theorem materialFilter_less_strict_weak_order :
    (∀ a b : MaterialFilter,
      MaterialFilter.Less a b = true ↔
        a._value < b._value ∨ (a._value = b._value ∧ a._mask < b._mask))
    ∧ (∀ a : MaterialFilter, MaterialFilter.Less a a = false)
    ∧ (∀ a b c : MaterialFilter, MaterialFilter.Less a b = true →
        MaterialFilter.Less b c = true → MaterialFilter.Less a c = true)
    ∧ (∀ a b : MaterialFilter, MaterialFilter.Less a b = false →
        MaterialFilter.Less b a = false → a = b)
    ∧ MaterialFilter.Less ⟨1, 1⟩ ⟨2, 3⟩ = true :=
  ⟨materialFilter_less_true_iff, materialFilter_less_irrefl,
    materialFilter_less_trans, materialFilter_less_consistent, by decide⟩

/-- C2 witness: transitivity and consistency applied to concrete filters. -/
theorem materialFilter_less_strict_weak_order_witness :
    MaterialFilter.Less ⟨0, 0⟩ ⟨2, 3⟩ = true ∧ (⟨5, 6⟩ : MaterialFilter) = ⟨5, 6⟩ :=
  ⟨materialFilter_less_strict_weak_order.2.2.1 ⟨0, 0⟩ ⟨1, 1⟩ ⟨2, 3⟩ (by decide) (by decide),
    materialFilter_less_strict_weak_order.2.2.2.1 ⟨5, 6⟩ ⟨5, 6⟩ (by decide) (by decide)⟩

/-- C3: the buckets of an ItemMaterialBucketMap are enumerated exactly in the
MaterialFilter::Less order: an earlier position holds a Less-smaller filter,
and the bucket of a Less-smaller filter sits at an earlier position. -/
theorem itemMaterialBucketMap_enumeration_order :
    ∀ (m : ItemMaterialBucketMap) (i j : Nat)
      (hi : i < m.buckets.length) (hj : j < m.buckets.length),
      (i < j →
        MaterialFilter.Less (m.buckets.get ⟨i, hi⟩).1 (m.buckets.get ⟨j, hj⟩).1 = true)
      ∧ (MaterialFilter.Less (m.buckets.get ⟨i, hi⟩).1 (m.buckets.get ⟨j, hj⟩).1 = true →
        i < j) := by
  intro m i j hi hj
  have hp := List.pairwise_iff_get.mp m.sorted
  constructor
  · intro hij
    exact hp ⟨i, hi⟩ ⟨j, hj⟩ hij
  · intro hless
    rcases Nat.lt_trichotomy i j with h | h | h
    · exact h
    · subst h
      rw [materialFilter_less_irrefl] at hless
      exact absurd hless Bool.false_ne_true
    · exact absurd (materialFilter_less_asymm _ _ hless (hp ⟨j, hj⟩ ⟨i, hi⟩ h)) id

/-- C3 witness: in the sample two-bucket map, the bucket of the smaller filter
is enumerated first. -/
theorem itemMaterialBucketMap_enumeration_order_witness : (0 : Nat) < 1 :=
  (itemMaterialBucketMap_enumeration_order sampleBucketMap 0 1 (by decide) (by decide)).2
    (by decide)

/-- C10: isOpaque is exactly the negation of isTransparent, so exactly one of
the two holds for every MaterialKey. -/
theorem materialKey_isOpaque_negation :
    ∀ k : MaterialKey,
      MaterialKey.isOpaque k = !(MaterialKey.isTransparent k)
      ∧ (MaterialKey.isOpaque k = true ↔ ¬(MaterialKey.isTransparent k = true)) := by
  intro k
  constructor
  · rfl
  · rw [MaterialKey.isOpaque, MaterialKey.isTransparent]
    cases Flags.read k._flags TRANSPARENT_VAL_BIT <;> simp

/-- C10 witness: the empty key is opaque and not transparent. -/
theorem materialKey_isOpaque_negation_witness :
    MaterialKey.isOpaque ⟨0⟩ = !(MaterialKey.isTransparent ⟨0⟩) :=
  (materialKey_isOpaque_negation ⟨0⟩).1

/-- C4: Job::run executes exactly the stage-execution path of the shape chosen
at construction: running a concept preserves its shape, a no-I/O concept runs
the stage through jobRun and leaves the output heap untouched, an input-only
concept runs it through jobRunI on the value read from the input slot, an
output-only concept runs it through jobRunO on the current output payload and
writes the returned payload back to the output slot, an input-output concept
does both through jobRunIO, and Job::run forwards to the concept it holds. -/
theorem job_run_dispatch_by_shape :
    ∀ (SC RC T I O : Type),
      (∀ (j : Concept SC RC T I O) (sc : SC) (rc : RC) (hi : Heap I) (ho : Heap O),
        (Concept.run j sc rc hi ho).1.shape = j.shape)
      ∧ (∀ (d : T) (r : SC → RC → T → T) (sc : SC) (rc : RC) (hi : Heap I) (ho : Heap O),
        Concept.run (Concept.model d r : Concept SC RC T I O) sc rc hi ho
          = (Concept.model (jobRun r d sc rc) r, ho))
      ∧ (∀ (d : T) (v : Varying) (r : SC → RC → T → I → T) (sc : SC) (rc : RC)
          (hi : Heap I) (ho : Heap O),
        Concept.run (Concept.modelI d v r : Concept SC RC T I O) sc rc hi ho
          = (Concept.modelI (jobRunI r d sc rc (Varying.get hi v)) v r, ho))
      ∧ (∀ (d : T) (v : Varying) (r : SC → RC → T → O → T × O) (sc : SC) (rc : RC)
          (hi : Heap I) (ho : Heap O),
        Concept.run (Concept.modelO d v r : Concept SC RC T I O) sc rc hi ho
          = (Concept.modelO (jobRunO r d sc rc (Varying.get ho v)).1 v r,
             Varying.editWrite ho v (jobRunO r d sc rc (Varying.get ho v)).2))
      ∧ (∀ (d : T) (vi vo : Varying) (r : SC → RC → T → I → O → T × O) (sc : SC) (rc : RC)
          (hi : Heap I) (ho : Heap O),
        Concept.run (Concept.modelInOut d vi vo r : Concept SC RC T I O) sc rc hi ho
          = (Concept.modelInOut
               (jobRunInOut r d sc rc (Varying.get hi vi) (Varying.get ho vo)).1 vi vo r,
             Varying.editWrite ho vo
               (jobRunInOut r d sc rc (Varying.get hi vi) (Varying.get ho vo)).2))
      ∧ (∀ (c : Concept SC RC T I O) (sc : SC) (rc : RC) (hi : Heap I) (ho : Heap O),
        Job.run (⟨some c⟩ : Job SC RC T I O) sc rc hi ho
          = (⟨some (Concept.run c sc rc hi ho).1⟩, (Concept.run c sc rc hi ho).2)) := by
  intro SC RC T I O
  refine ⟨fun j sc rc hi ho => ?_, fun _ _ _ _ _ _ => rfl, fun _ _ _ _ _ _ _ => rfl,
    fun _ _ _ _ _ _ _ => rfl, fun _ _ _ _ _ _ _ _ => rfl, fun _ _ _ _ _ => rfl⟩
  cases j <;> rfl

/-- C4 witness: running the sample no-slot concept preserves its shape. -/
theorem job_run_dispatch_by_shape_witness :
    (Concept.run sampleConceptModel () () sampleHeap sampleHeap).1.shape
      = sampleConceptModel.shape :=
  (job_run_dispatch_by_shape Unit Unit Nat Nat Nat).1 sampleConceptModel () ()
    sampleHeap sampleHeap

/-- C5: copies of a Varying share the slot, and a value written through edit on
one copy is returned unchanged by get on any copy of the same slot. -/
theorem varying_read_after_write :
    (∀ v : Varying, Varying.copy v = v)
    ∧ (∀ (T : Type) (h : Heap T) (v w : Varying) (x : T),
      w.slot = v.slot → Varying.get (Varying.editWrite h v x) w = x) := by
  constructor
  · intro v
    rfl
  · intro T h v w x hw
    simp [Varying.get, Varying.editWrite, hw]

/-- C5 witness: a write of 7 through the slot-3 Varying is read back by a copy
referencing slot 3. -/
theorem varying_read_after_write_witness :
    Varying.get (Varying.editWrite (fun _ => 0) ⟨3⟩ 7) ⟨3⟩ = 7 :=
  varying_read_after_write.2 Nat (fun _ => 0) ⟨3⟩ ⟨3⟩ 7 rfl

/-- C6: after setMapChannel with value true on an in-range channel,
isMapChannel on that channel returns true, and every flag bit other than the
bit of that channel is unchanged. -/
theorem materialKey_setMapChannel_isolated :
    ∀ (k : MaterialKey) (c : Nat), c < NUM_MAP_CHANNELS →
      MaterialKey.isMapChannel (MaterialKey.setMapChannel k c true) c = true
      ∧ ∀ b, b ≠ mapChannelBit c →
          Nat.testBit (MaterialKey.setMapChannel k c true)._flags b
            = Nat.testBit k._flags b := by
  intro k c _
  constructor
  · simp [MaterialKey.isMapChannel, MaterialKey.setMapChannel, Flags.setVal, Flags.read,
      Nat.testBit_lor, Nat.testBit_two_pow_self]
  · intro b hb
    simp [MaterialKey.setMapChannel, Flags.setVal, Nat.testBit_lor,
      Nat.testBit_two_pow_of_ne (Ne.symm hb)]

/-- C6 witness: setting channel 1 (the albedo map) on the empty key sets its
bit and leaves bit 0 clear. -/
theorem materialKey_setMapChannel_isolated_witness :
    MaterialKey.isMapChannel (MaterialKey.setMapChannel ⟨0⟩ 1 true) 1 = true
    ∧ Nat.testBit (MaterialKey.setMapChannel ⟨0⟩ 1 true)._flags 0
        = Nat.testBit (0 : Nat) 0 :=
  ⟨(materialKey_setMapChannel_isolated ⟨0⟩ 1 (by decide)).1,
    (materialKey_setMapChannel_isolated ⟨0⟩ 1 (by decide)).2 0 (by decide)⟩

/-- C7: for every channel below NUM_MAP_CHANNELS the addressed bit
EMISSIVE_MAP_BIT + channel is a valid flag index below NUM_FLAGS, distinct
in-range channels address distinct bits, and every channel at or beyond
NUM_MAP_CHANNELS addresses a bit outside the flag range. -/
theorem mapChannelBit_total_in_range :
    (∀ c, c < NUM_MAP_CHANNELS → mapChannelBit c < NUM_FLAGS)
    ∧ (∀ c d, c < NUM_MAP_CHANNELS → d < NUM_MAP_CHANNELS →
        mapChannelBit c = mapChannelBit d → c = d)
    ∧ (∀ c, NUM_MAP_CHANNELS ≤ c → ¬(mapChannelBit c < NUM_FLAGS)) := by
  refine ⟨fun c hc => ?_, fun c d _ _ h => ?_, fun c hc => ?_⟩ <;>
    simp only [mapChannelBit, EMISSIVE_MAP_BIT, NUM_FLAGS, NUM_MAP_CHANNELS] at * <;>
    omega

/-- C7 witness: channel 6, the lightmap channel, addresses bit 11, inside the
flag range; channel 7 addresses bit 12, outside it. -/
theorem mapChannelBit_total_in_range_witness :
    mapChannelBit 6 < NUM_FLAGS ∧ ¬(mapChannelBit 7 < NUM_FLAGS) :=
  ⟨mapChannelBit_total_in_range.1 6 (by decide),
    mapChannelBit_total_in_range.2.2 7 (by decide)⟩

/-- C8: both ModelO constructors and the input-taking ModelIO constructor bind
the output Varying to a fresh cell holding a default-constructed value of the
output type, so a read of the output slot before any write returns the default
value of the output type. -/
theorem modelO_output_default_initialized :
    ∀ (SC RC T I O : Type) [Inhabited T] [Inhabited O]
      (r : SC → RC → T → O → T × O) (rio : SC → RC → T → I → O → T × O)
      (d : T) (input : Varying) (fresh : Nat) (ho : Heap O),
      ((Concept.mkModelO r fresh ho : Concept SC RC T I O × Heap O).1
          = Concept.modelO default ⟨fresh⟩ r
        ∧ Varying.get (Concept.mkModelO r fresh ho : Concept SC RC T I O × Heap O).2 ⟨fresh⟩
          = (default : O))
      ∧ ((Concept.mkModelOData d r fresh ho : Concept SC RC T I O × Heap O).1
          = Concept.modelO d ⟨fresh⟩ r
        ∧ Varying.get (Concept.mkModelOData d r fresh ho : Concept SC RC T I O × Heap O).2
            ⟨fresh⟩ = (default : O))
      ∧ ((Concept.mkModelInOutFromInput input rio fresh ho).1
          = Concept.modelInOut default input ⟨fresh⟩ rio
        ∧ Varying.get (Concept.mkModelInOutFromInput input rio fresh ho).2 ⟨fresh⟩
          = (default : O)) := by
  intro SC RC T I O instT instO r rio d input fresh ho
  refine ⟨⟨rfl, ?_⟩, ⟨rfl, ?_⟩, ⟨rfl, ?_⟩⟩ <;>
    simp [Varying.get, Varying.ofData, Concept.mkModelO, Concept.mkModelOData,
      Concept.mkModelInOutFromInput]

/-- C8 witness: the data constructor of ModelO over Nat payloads initializes
the fresh output slot 2 to the default Nat value 0 even though the prior heap
holds 9 everywhere. -/
theorem modelO_output_default_initialized_witness :
    Varying.get (Concept.mkModelOData 5 sampleRunO 2 sampleHeap :
      Concept Unit Unit Nat Nat Nat × Heap Nat).2 ⟨2⟩ = 0 :=
  (modelO_output_default_initialized Unit Unit Nat Nat Nat sampleRunO sampleRunInOut 5
    ⟨0⟩ 2 sampleHeap).2.1.2

/-- C9 counterexample: MaterialKey is not immutable after construction: the
public member setTransparent changes the flag bits of the freshly built empty
key. -/
theorem materialKey_mutation_counterexample :
    MaterialKey.setTransparent (MaterialKey.Builder.build MaterialKey.Builder.init) true
      ≠ MaterialKey.Builder.build MaterialKey.Builder.init := by
  decide

/-- C9 amended: MaterialFilter is immutable after construction: its public
operations (test and the two sides of a Less comparison) never change its mask
or value; MaterialKey is left unchanged by its const observer members, while
its setter members mutate the flags in place. -/
theorem materialFilter_immutable_key_observers_pure :
    (∀ (op : FilterOp) (f : MaterialFilter), FilterOp.post op f = f)
    ∧ (∀ (op : KeyOp) (k : MaterialKey),
        KeyOp.isConstMember op = true → KeyOp.post op k = k) := by
  constructor
  · intro op f
    cases op <;> rfl
  · intro op k h
    cases op <;> first | rfl | simp [KeyOp.isConstMember] at h

/-- C9 amended witness: the const member isOpaque leaves the key with flags 5
unchanged. -/
theorem materialFilter_immutable_key_observers_pure_witness :
    KeyOp.post KeyOp.isOpaque ⟨5⟩ = ⟨5⟩ :=
  materialFilter_immutable_key_observers_pure.2 KeyOp.isOpaque ⟨5⟩ rfl

end Hifi
